import Mathlib

/-!
Shallow embedding of the M5Stack Unit LoRaWAN (ASR6501) driver
(src/unit_lorawan.c, src/include/unit_lorawan.h) in Lean 4.

The serial transport and the modem are external collaborators: they are
modelled as oracles.  A call to the AT-command framer is parametrised by a
behaviour function giving, for every attempt index, the outcome of that
attempt (UART write failure, read timeout, or the raw response text that the
poll loop captured).  Every operation additionally returns the list of
transport events it performed, so that claims about the presence or absence
of transport I O can be stated as facts about that trace.
-/

namespace UnitLorawan

/-- The subset of esp_err_t codes used by the driver. -/
inductive EspErr where
  | ESP_OK
  | ESP_FAIL
  | ESP_ERR_INVALID_ARG
  | ESP_ERR_INVALID_SIZE
  | ESP_ERR_NO_MEM
  | ESP_ERR_TIMEOUT
  | ESP_ERR_NOT_SUPPORTED
  | ESP_ERR_INVALID_STATE
deriving DecidableEq

open EspErr

/-- Header constants (src/include/unit_lorawan.h lines 62..71). -/
def UNIT_LORAWAN_US915_MAX_PAYLOAD_DR0 : Nat := 11

def UNIT_LORAWAN_US915_MAX_PAYLOAD_DR1 : Nat := 53

def UNIT_LORAWAN_US915_MAX_PAYLOAD_DR2 : Nat := 125

def UNIT_LORAWAN_US915_MAX_PAYLOAD_DR3 : Nat := 242

def UNIT_LORAWAN_US915_MAX_PAYLOAD_DR4 : Nat := 242

def UNIT_LORAWAN_LOG_LEVEL_MAX : Nat := 5

def UNIT_LORAWAN_EUI_LENGTH : Nat := 16

def UNIT_LORAWAN_APP_KEY_LENGTH : Nat := 32

def UNIT_LORAWAN_HEX_MESSAGE_MAX_SIZE : Nat := 512

/-- The us915_max_payload_sizes lookup table (unit_lorawan.c lines 55..61). -/
def us915_max_payload_sizes : List Nat :=
  [ UNIT_LORAWAN_US915_MAX_PAYLOAD_DR0
  , UNIT_LORAWAN_US915_MAX_PAYLOAD_DR1
  , UNIT_LORAWAN_US915_MAX_PAYLOAD_DR2
  , UNIT_LORAWAN_US915_MAX_PAYLOAD_DR3
  , UNIT_LORAWAN_US915_MAX_PAYLOAD_DR4 ]

/-- The switch statement of _unit_lorawan_validate_payload_size: maximum
payload for a data rate, with the default branch falling back to the DR0
ceiling. -/
def maxPayloadFor (data_rate : Nat) : Nat :=
  match data_rate with
  | 0 => UNIT_LORAWAN_US915_MAX_PAYLOAD_DR0
  | 1 => UNIT_LORAWAN_US915_MAX_PAYLOAD_DR1
  | 2 => UNIT_LORAWAN_US915_MAX_PAYLOAD_DR2
  | 3 => UNIT_LORAWAN_US915_MAX_PAYLOAD_DR3
  | 4 => UNIT_LORAWAN_US915_MAX_PAYLOAD_DR4
  | _ => UNIT_LORAWAN_US915_MAX_PAYLOAD_DR0

/-- _unit_lorawan_validate_payload_size (unit_lorawan.c lines 118..155). -/
def _unit_lorawan_validate_payload_size (payload_size : Nat)
    (data_rate : Nat) : EspErr :=
  if payload_size > maxPayloadFor data_rate then ESP_ERR_INVALID_SIZE
  else ESP_OK

/-! ## String utilities modelling strstr and sscanf token extraction -/

/-- C strstr: returns the suffix of the haystack starting at the first
occurrence of the needle, or none. -/
def findSub (needle : List Char) : List Char → Option (List Char)
  | [] => if needle.isPrefixOf ([] : List Char) then some [] else none
  | c :: rest =>
      if needle.isPrefixOf (c :: rest) then some (c :: rest)
      else findSub needle rest

/-- Boolean substring containment, strstr(hay, needle) != NULL. -/
def strContains (hay needle : String) : Bool :=
  (findSub needle.data hay.data).isSome

/-- C isspace for the default locale: space and the characters 9..13. -/
def isWsC (c : Char) : Bool :=
  c.toNat = 32 || (9 ≤ c.toNat && c.toNat ≤ 13)

/-- The sscanf conversion %Ns: skip whitespace, then read up to N
consecutive non-whitespace characters.  The conversion counts as successful
exactly when the result is nonempty. -/
def scanToken (maxLen : Nat) (s : List Char) : List Char :=
  ((s.dropWhile isWsC).takeWhile (fun c => !isWsC c)).take maxLen

/-! ## Response parser -/

/-- lorawan_response_t (unit_lorawan.c lines 66..72); data_length is
implicit in response_data. -/
structure lorawan_response_t where
  success : Bool
  response_data : Option String
  error_code : String
deriving DecidableEq

/-- The zero-initialised response record. -/
def blankResponse : lorawan_response_t :=
  { success := false, response_data := none, error_code := "" }

/-- The data-bearing reply markers recognised by
_unit_lorawan_parse_response (both the branch under OK and the fallback
branch list the same seven markers). -/
def dataMarkers : List String :=
  ["+CGMI=", "+CSTATUS:", "+CDATARATE:", "+CTXP:", "+CRSSI:", "+DTRX:",
   "+CJOIN:"]

/-- Whether the raw text contains one of the data-bearing markers. -/
def hasDataMarker (raw : String) : Bool :=
  dataMarkers.any (fun p => strContains raw p)

/-- sscanf( error_pos, "ERROR:%15s", ... ) applied at the first occurrence
of ERROR: the literal ERROR: must match there, then a token of at most 15
non-whitespace characters is read; on any mismatch the error code stays
empty (the struct was zeroed). -/
def errorCodeOf (raw : String) : String :=
  match findSub "ERROR".data raw.data with
  | none => ""
  | some suf =>
      match suf.drop 5 with
      | ':' :: rest => String.mk (scanToken 15 rest)
      | _ => ""

/-- _unit_lorawan_parse_response (unit_lorawan.c lines 183..256).  The
response_len argument of the C function always equals the length of the
captured text, so the guard response_len == 0 is the emptiness test; the
malloc inside is assumed to succeed. -/
def _unit_lorawan_parse_response (raw : String) :
    EspErr × lorawan_response_t :=
  if raw.data = [] then (ESP_ERR_INVALID_ARG, blankResponse)
  else if strContains raw "OK" then
    (ESP_OK,
     { success := true
       response_data := if hasDataMarker raw then some raw else none
       error_code := "" })
  else if strContains raw "ERROR" then
    (ESP_OK,
     { success := false, response_data := none,
       error_code := errorCodeOf raw })
  else if hasDataMarker raw then
    (ESP_OK, { success := true, response_data := some raw, error_code := "" })
  else
    (ESP_OK, blankResponse)

example : (_unit_lorawan_parse_response "ERROR:7").2.error_code = "7" := by
  decide

example : (_unit_lorawan_parse_response "+CDATARATE:2").2.success = true := by
  decide

example : (_unit_lorawan_parse_response "OK+CSTATUS:04").2.response_data
    = some "OK+CSTATUS:04" := by decide

/-! ## Command framer -/

/-- Outcome of one attempt of the framer: the UART write fails, the poll
loop of _unit_lorawan_wait_for_response times out, or some raw text is
captured by the first successful poll. -/
inductive AttemptOutcome where
  | writeFail
  | uartTimeout
  | received (text : String)
deriving DecidableEq

/-- A transport event performed by the driver.  readEv stands for the whole
poll loop of one _unit_lorawan_wait_for_response call. -/
inductive IOEvent where
  | flushEv
  | writeEv (frame : String)
  | readEv
  | delayEv (ms : Nat)
deriving DecidableEq

/-- snprintf( at_cmd, .., "AT+%s\r\n", cmd ). -/
def atFrame (cmd : String) : String := "AT+" ++ cmd ++ "\r\n"

/-- Transport events of attempt number retry of the framer loop: a 500 ms
backoff before every retry but not before the first attempt, then a flush,
then the UART write; if the write succeeded, the 100 ms command delay and
the response poll loop follow. -/
def attemptTrace (cmd : String) (o : AttemptOutcome) (retry : Nat) :
    List IOEvent :=
  (if retry > 0 then [IOEvent.delayEv 500] else []) ++ [IOEvent.flushEv] ++
  match o with
  | AttemptOutcome.writeFail => [IOEvent.writeEv (atFrame cmd)]
  | AttemptOutcome.uartTimeout =>
      [IOEvent.writeEv (atFrame cmd), IOEvent.delayEv 100, IOEvent.readEv]
  | AttemptOutcome.received _ =>
      [IOEvent.writeEv (atFrame cmd), IOEvent.delayEv 100, IOEvent.readEv]

/-- Status and parsed response of one attempt: a failed write keeps the
uart_write error, a timeout yields ESP_ERR_TIMEOUT, and captured text is
handed to the parser. -/
def attemptResult (o : AttemptOutcome) : EspErr × lorawan_response_t :=
  match o with
  | AttemptOutcome.writeFail => (ESP_FAIL, blankResponse)
  | AttemptOutcome.uartTimeout => (ESP_ERR_TIMEOUT, blankResponse)
  | AttemptOutcome.received t => _unit_lorawan_parse_response t

/-- An attempt outcome ends the framer retry loop exactly when it is a
captured nonempty text. -/
def isGoodOutcome : AttemptOutcome → Bool
  | AttemptOutcome.received t => !t.data.isEmpty
  | _ => false

/-- The retry loop of _unit_lorawan_send_at_command, structurally recursive
on the number of remaining attempts.  The loop exits as soon as an attempt
ends with ESP_OK (the parse of any nonempty captured text), otherwise it
continues until the attempts are exhausted and returns the last failure. -/
def sendLoop (cmd : String) (b : Nat → AttemptOutcome) (retry : Nat) :
    Nat → EspErr × lorawan_response_t × List IOEvent
  | 0 => (ESP_FAIL, blankResponse, [])
  | remaining + 1 =>
      let o := b retry
      let tr := attemptTrace cmd o retry
      let r := attemptResult o
      if r.1 = ESP_OK then (r.1, r.2, tr)
      else if remaining = 0 then (r.1, r.2, tr)
      else
        let rec2 := sendLoop cmd b (retry + 1) remaining
        (rec2.1, rec2.2.1, tr ++ rec2.2.2)

/-- _unit_lorawan_send_at_command (unit_lorawan.c lines 258..346) with
UNIT_LORAWAN_MAX_RETRIES = 3 total attempts; the behaviour b gives the
transport outcome of each attempt. -/
def _unit_lorawan_send_at_command (cmd : String)
    (b : Nat → AttemptOutcome) : EspErr × lorawan_response_t × List IOEvent :=
  sendLoop cmd b 0 3

/-- Whether an event is the transport flush. -/
def isFlushEv : IOEvent → Bool
  | IOEvent.flushEv => true
  | _ => false

/-- Whether an event is a UART write. -/
def isWriteEv : IOEvent → Bool
  | IOEvent.writeEv _ => true
  | _ => false

/-- Whether an event is the 500 ms retry backoff delay. -/
def isBackoffEv : IOEvent → Bool
  | IOEvent.delayEv m => m == 500
  | _ => false

/-- Number of flush events in a trace. -/
def flushCount (tr : List IOEvent) : Nat := (tr.filter isFlushEv).length

/-- Number of UART write events in a trace. -/
def writeCount (tr : List IOEvent) : Nat := (tr.filter isWriteEv).length

/-- Number of 500 ms retry backoff delays in a trace. -/
def backoffCount (tr : List IOEvent) : Nat := (tr.filter isBackoffEv).length

example :
    _unit_lorawan_send_at_command "CSAVE" (fun _ => .received "OK")
      = (ESP_OK, ⟨true, none, ""⟩,
         [.flushEv, .writeEv "AT+CSAVE\r\n", .delayEv 100, .readEv]) := by
  decide

/-! ## Payload codec (the hex conversion loop of unit_lorawan_send) -/

/-- One hex digit of snprintf %02X: uppercase, so 10..15 map to A..F. -/
def hexDigit (n : Nat) : Char :=
  if n < 10 then Char.ofNat (48 + n) else Char.ofNat (55 + n)

/-- snprintf( .., "%02X", (uint8_t)byte ): two zero-padded uppercase hex
characters of the byte (the C cast to uint8_t is the mod 256). -/
def byteToHex (b : Nat) : List Char :=
  [hexDigit (b % 256 / 16), hexDigit (b % 256 % 16)]

/-- The encoding loop over the message bytes. -/
def hexEncodeBytes : List Nat → List Char
  | [] => []
  | b :: rest => byteToHex b ++ hexEncodeBytes rest

/-- Value of an uppercase hex character, for the decoding direction. -/
def hexDigitVal (c : Char) : Option Nat :=
  if 48 ≤ c.toNat ∧ c.toNat ≤ 57 then some (c.toNat - 48)
  else if 65 ≤ c.toNat ∧ c.toNat ≤ 70 then some (c.toNat - 55)
  else none

/-- Decoding of a hex string back into bytes, two characters per byte. -/
def hexDecodeBytes : List Char → Option (List Nat)
  | [] => some []
  | [_] => none
  | c1 :: c2 :: rest =>
      match hexDigitVal c1, hexDigitVal c2, hexDecodeBytes rest with
      | some d1, some d2, some bs => some ((16 * d1 + d2) :: bs)
      | _, _, _ => none

example : String.mk (hexEncodeBytes [65, 66]) = "4142" := by decide

/-! ## unit_lorawan_send -/

/-- Observable outcome of unit_lorawan_send up to the point where the DTRX
frame is handed to the framer: the status of any early return, the data
rate used for validation, and the command frame built (none when the
function returned before building it). -/
structure SendOutcome where
  err : EspErr
  drUsed : Nat
  frame : Option String
deriving DecidableEq

/-- unit_lorawan_send (unit_lorawan.c lines 666..741), modelled up to the
framer call.  message is the byte sequence (its length is the length
argument); drQuery is the result of the fresh
unit_lorawan_get_data_rate_info call: its status and, on success, the data
rate value the modem reported (stored through a uint8_t, hence mod 256).
If the query fails the validation falls back to data rate 0.  err = ESP_OK
means the function reached the framer with the built frame. -/
def drUsedOf (drQuery : EspErr × Nat) : Nat :=
  if drQuery.1 = ESP_OK then drQuery.2 % 256 else 0

def unit_lorawan_send (message : List Nat) (drQuery : EspErr × Nat) :
    SendOutcome :=
  if message = [] then
    { err := ESP_ERR_INVALID_ARG, drUsed := 0, frame := none }
  else if _unit_lorawan_validate_payload_size message.length
      (drUsedOf drQuery) ≠ ESP_OK then
    { err := ESP_ERR_INVALID_SIZE, drUsed := drUsedOf drQuery, frame := none }
  else if (hexEncodeBytes message).length
      > UNIT_LORAWAN_HEX_MESSAGE_MAX_SIZE then
    { err := ESP_ERR_INVALID_SIZE, drUsed := drUsedOf drQuery, frame := none }
  else
    { err := ESP_OK, drUsed := drUsedOf drQuery,
      frame := some ("DTRX=1,2," ++ Nat.repr message.length ++ ","
        ++ String.mk (hexEncodeBytes message)) }

example :
    (unit_lorawan_send [65, 66] (ESP_FAIL, 0)).frame
      = some "DTRX=1,2,2,4142" := by decide

/-! ## Module control operations with range validation -/

/-- unit_lorawan_set_data_rate (lines 954..987): arguments above
UNIT_LORAWAN_US915_DATA_RATE_MAX are rejected before any transport call;
otherwise a single CDATARATE command is framed and sent. -/
def unit_lorawan_set_data_rate (data_rate : Nat)
    (b : Nat → AttemptOutcome) : EspErr × List IOEvent :=
  let dr := data_rate % 256
  if dr > 4 then (ESP_ERR_INVALID_ARG, [])
  else
    let r := _unit_lorawan_send_at_command ("CDATARATE=" ++ Nat.repr dr) b
    (r.1, r.2.2)

/-- unit_lorawan_set_tx_power (lines 1027..1056). -/
def unit_lorawan_set_tx_power (power_index : Nat)
    (b : Nat → AttemptOutcome) : EspErr × List IOEvent :=
  let p := power_index % 256
  if p > 7 then (ESP_ERR_INVALID_ARG, [])
  else
    let r := _unit_lorawan_send_at_command ("CTXP=" ++ Nat.repr p) b
    (r.1, r.2.2)

/-- unit_lorawan_set_retries (lines 989..1025). -/
def unit_lorawan_set_retries (message_type retries : Nat)
    (b : Nat → AttemptOutcome) : EspErr × List IOEvent :=
  let t := message_type % 256
  let n := retries % 256
  if t > 1 then (ESP_ERR_INVALID_ARG, [])
  else if n < 1 ∨ n > 15 then (ESP_ERR_INVALID_ARG, [])
  else
    let r := _unit_lorawan_send_at_command
      ("CNBTRIALS=" ++ Nat.repr t ++ "," ++ Nat.repr n) b
    (r.1, r.2.2)

/-- unit_lorawan_link_check (lines 1104..1160), up to the framed command. -/
def unit_lorawan_link_check (mode : Nat)
    (b : Nat → AttemptOutcome) : EspErr × List IOEvent :=
  let m := mode % 256
  if m > 2 then (ESP_ERR_INVALID_ARG, [])
  else
    let r := _unit_lorawan_send_at_command ("CLINKCHECK=" ++ Nat.repr m) b
    (r.1, r.2.2)

/-- unit_lorawan_log (lines 358..387): a level above
UNIT_LORAWAN_LOG_LEVEL_MAX is clamped to 5, never rejected; the ILOGLVL
command is framed and sent in every case.  The middle component is the
command string built by the snprintf. -/
def unit_lorawan_log (level : Nat) (b : Nat → AttemptOutcome) :
    EspErr × String × List IOEvent :=
  let l0 := level % 256
  let l := if l0 > UNIT_LORAWAN_LOG_LEVEL_MAX then UNIT_LORAWAN_LOG_LEVEL_MAX
           else l0
  let cmd := "ILOGLVL=" ++ Nat.repr l
  let r := _unit_lorawan_send_at_command cmd b
  (r.1, cmd, r.2.2)

/-! ## unit_lorawan_connected -/

/-- The sscanf( status_pos, "+CSTATUS:%7s", status_code ) extraction of
unit_lorawan_connected: the token of at most 7 non-whitespace characters
following the first +CSTATUS: occurrence, or none when the marker is
absent. -/
def statusTokenFrom (data : String) : Option String :=
  match findSub "+CSTATUS:".data data.data with
  | none => none
  | some suf => some (String.mk (scanToken 7 (suf.drop 9)))

/-- The state computation of unit_lorawan_connected from the framer status
and the parsed response: the state is set only when the command succeeded,
the response carried data, the +CSTATUS: token was extracted nonempty, and
that token contains 04 or 08. -/
def connectedState (e : EspErr) (pr : lorawan_response_t) : Bool :=
  if e = ESP_OK ∧ pr.success = true then
    match pr.response_data with
    | some data =>
        match statusTokenFrom data with
        | some tok =>
            !tok.data.isEmpty
              && (strContains tok "04" || strContains tok "08")
        | none => false
    | none => false
  else false

/-- unit_lorawan_connected (unit_lorawan.c lines 389..444) with a non-NULL
state pointer, parametrised by the framer behaviour.  The middle component
is the value written through the state pointer. -/
def unit_lorawan_connected (b : Nat → AttemptOutcome) :
    EspErr × Bool × List IOEvent :=
  ((_unit_lorawan_send_at_command "CSTATUS?" b).1,
   connectedState (_unit_lorawan_send_at_command "CSTATUS?" b).1
     (_unit_lorawan_send_at_command "CSTATUS?" b).2.1,
   (_unit_lorawan_send_at_command "CSTATUS?" b).2.2)

/-- unit_lorawan_connected when the modem delivers the text raw on the
first attempt; trace dropped. -/
def connectedOnce (raw : String) : EspErr × Bool :=
  let r := unit_lorawan_connected (fun _ => AttemptOutcome.received raw)
  (r.1, r.2.1)

example : connectedOnce "+CSTATUS:04" = (ESP_OK, true) := by decide

example : connectedOnce "OK+CSTATUS:03" = (ESP_OK, false) := by decide

/-! ## unit_lorawan_configOTTA -/

/-- unit_lorwan_uldlmode (unit_lorawan.h lines 108..113). -/
inductive unit_lorwan_uldlmode where
  | DIFFERENT_FREQ_MODE
  | SAME_FREQ_MODE
deriving DecidableEq

/-- _unit_lorawan_uldlmode_str: DIFFERENT_FREQ_MODE indexes "2",
SAME_FREQ_MODE indexes "1". -/
def uldlmodeStr : unit_lorwan_uldlmode → String
  | unit_lorwan_uldlmode.DIFFERENT_FREQ_MODE => "2"
  | unit_lorwan_uldlmode.SAME_FREQ_MODE => "1"

/-- One configuration step: frame and send the command (the modem oracle
gives the per-attempt outcome for each command string), keep the status,
the success flag of the parsed response and the transport trace. -/
def configStep (modem : String → Nat → AttemptOutcome) (cmd : String) :
    EspErr × Bool × List IOEvent :=
  let r := _unit_lorawan_send_at_command cmd (modem cmd)
  (r.1, r.2.1.success, r.2.2)

/-- The goto-cleanup chain of unit_lorawan_configOTTA: run the commands in
order; a step with a non-ESP_OK status or an unsuccessful response aborts
the remaining steps and the current status is returned (note the source
returns err unchanged, so a step that parsed as a modem error still yields
ESP_OK). -/
def runConfigSteps (modem : String → Nat → AttemptOutcome) :
    List String → EspErr × List IOEvent
  | [] => (ESP_OK, [])
  | cmd :: rest =>
      let s := configStep modem cmd
      if s.1 = ESP_OK ∧ s.2.1 = true then
        let r := runConfigSteps modem rest
        (r.1, s.2.2 ++ r.2)
      else (s.1, s.2.2)

/-- unit_lorawan_configOTTA (unit_lorawan.c lines 471..584).  The only
argument validation is the NULL check on the three strings; the seven
commands are then issued in source order. -/
def unit_lorawan_configOTTA (devEUI appEUI appKey : Option String)
    (mode : unit_lorwan_uldlmode)
    (modem : String → Nat → AttemptOutcome) : EspErr × List IOEvent :=
  match devEUI, appEUI, appKey with
  | some dev, some app, some key =>
      runConfigSteps modem
        [ "CJOINMODE=0"
        , "CDEVEUI=" ++ dev
        , "CAPPEUI=" ++ app
        , "CAPPKEY=" ++ key
        , "CULDLMODE=" ++ uldlmodeStr mode
        , "CCLASS=0"
        , "CWORKMODE=2" ]
  | _, _, _ => (ESP_ERR_INVALID_ARG, [])

/-! ## TTN orchestrator (unit_lorawan_configure_ttn_us915) -/

/-- One framed modem call of a composite operation: the behaviour for each
command comes from the modem oracle. -/
def modemCall (modem : String → Nat → AttemptOutcome) (cmd : String) :
    EspErr × lorawan_response_t × List IOEvent :=
  _unit_lorawan_send_at_command cmd (modem cmd)

/-- The sscanf( cgmi_pos, "+CGMI=%15s", manufacturer ) extraction of
unit_lorawan_attached. -/
def manufacturerTokenFrom (data : String) : Option String :=
  match findSub "+CGMI=".data data.data with
  | none => none
  | some suf => some (String.mk (scanToken 15 (suf.drop 6)))

/-- The state computation of unit_lorawan_attached: true when the command
succeeded with data, the manufacturer token was extracted nonempty, and it
contains ASR. -/
def attachedState (e : EspErr) (pr : lorawan_response_t) : Bool :=
  if e = ESP_OK ∧ pr.success = true then
    match pr.response_data with
    | some data =>
        match manufacturerTokenFrom data with
        | some tok => !tok.data.isEmpty && strContains tok "ASR"
        | none => false
    | none => false
  else false

/-- unit_lorawan_attached (unit_lorawan.c lines 609..664) with a non-NULL
state pointer. -/
def unit_lorawan_attached (modem : String → Nat → AttemptOutcome) :
    EspErr × Bool × List IOEvent :=
  ((modemCall modem "CGMI?").1,
   attachedState (modemCall modem "CGMI?").1
     (modemCall modem "CGMI?").2.1,
   (modemCall modem "CGMI?").2.2)

/-- unit_lorawan_join (unit_lorawan.c lines 446..469): a single framed
CJOIN command whose framer status is returned unchanged. -/
def unit_lorawan_join (modem : String → Nat → AttemptOutcome) :
    EspErr × List IOEvent :=
  ((modemCall modem "CJOIN=1,1,10,8").1,
   (modemCall modem "CJOIN=1,1,10,8").2.2)

/-- unit_lorawan_ttn_config_t (unit_lorawan.h lines 118..129); the three
credential strings plus numeric settings (uint8 and uint16 fields hold
values in their C ranges). -/
structure unit_lorawan_ttn_config_t where
  dev_eui : String
  app_eui : String
  app_key : String
  sub_band : Nat
  data_rate : Nat
  adr_enabled : Bool
  rx2_frequency : Nat
  rx2_data_rate : Nat
  join_timeout_sec : Nat
deriving DecidableEq

/-- _validate_ttn_config (unit_lorawan.c lines 1331..1391): NULL check,
then EUI and key lengths, sub-band 1..8, data rate at most 4 and RX2 data
rate at most 15, in source order. -/
def _validate_ttn_config : Option unit_lorawan_ttn_config_t → EspErr
  | none => ESP_ERR_INVALID_ARG
  | some c =>
      if c.dev_eui.length ≠ UNIT_LORAWAN_EUI_LENGTH then ESP_ERR_INVALID_ARG
      else if c.app_eui.length ≠ UNIT_LORAWAN_EUI_LENGTH then
        ESP_ERR_INVALID_ARG
      else if c.app_key.length ≠ UNIT_LORAWAN_APP_KEY_LENGTH then
        ESP_ERR_INVALID_ARG
      else if c.sub_band < 1 ∨ c.sub_band > 8 then ESP_ERR_INVALID_ARG
      else if c.data_rate > 4 then ESP_ERR_INVALID_ARG
      else if c.rx2_data_rate > 15 then ESP_ERR_INVALID_ARG
      else ESP_OK

/-- _get_us915_sub_band_mask (unit_lorawan.c lines 1306..1329), defaulting
to the TTN sub-band 2 mask on invalid input. -/
def _get_us915_sub_band_mask : Nat → String
  | 1 => "0001"
  | 2 => "0002"
  | 3 => "0004"
  | 4 => "0008"
  | 5 => "0010"
  | 6 => "0020"
  | 7 => "0040"
  | 8 => "0080"
  | _ => "0002"

/-- _configure_us915_frequency_plan (unit_lorawan.c lines 1393..1431): the
US915 band mask command followed by the sub-band mask command, with the
same early-exit chain as configOTTA. -/
def _configure_us915_frequency_plan (modem : String → Nat → AttemptOutcome)
    (sub_band : Nat) : EspErr × List IOEvent :=
  runConfigSteps modem
    [ "CFREQBANDMASK=0001"
    , "CFREQBANDMASK=" ++ _get_us915_sub_band_mask sub_band ]

/-- _configure_ttn_network_parameters (unit_lorawan.c lines 784..839): the
CADR command is fatal on failure, while a failed CDATARATE write is
tolerated (err is reset to ESP_OK), so the step returns ESP_OK whenever
the ADR command went through. -/
def _configure_ttn_network_parameters
    (modem : String → Nat → AttemptOutcome)
    (c : unit_lorawan_ttn_config_t) : EspErr × List IOEvent :=
  if (configStep modem
        ("CADR=" ++ (if c.adr_enabled then "1" else "0"))).1 = ESP_OK ∧
      (configStep modem
        ("CADR=" ++ (if c.adr_enabled then "1" else "0"))).2.1 = true then
    (ESP_OK,
     (configStep modem
       ("CADR=" ++ (if c.adr_enabled then "1" else "0"))).2.2
       ++ (configStep modem
         ("CDATARATE=" ++ Nat.repr c.data_rate)).2.2)
  else
    ((configStep modem
       ("CADR=" ++ (if c.adr_enabled then "1" else "0"))).1,
     (configStep modem
       ("CADR=" ++ (if c.adr_enabled then "1" else "0"))).2.2)

/-- unit_lorawan_configure_ttn_us915 (unit_lorawan.c lines 1484..1599), up
to the spawn decision: validation, attached check, frequency plan, OTAA
configuration, network parameters, tolerated CSAVE, join; the final Bool
records whether the background join-watcher task was created
(xTaskCreate is reached exactly when every fatal step succeeded and a
callback was supplied; the parameter malloc is assumed to succeed). -/
def unit_lorawan_configure_ttn_us915
    (config : Option unit_lorawan_ttn_config_t) (hasCallback : Bool)
    (modem : String → Nat → AttemptOutcome) :
    EspErr × List IOEvent × Bool :=
  match config with
  | none => (ESP_ERR_INVALID_ARG, [], false)
  | some c =>
      if _validate_ttn_config (some c) ≠ ESP_OK then
        (_validate_ttn_config (some c), [], false)
      else if ¬ ((unit_lorawan_attached modem).1 = ESP_OK ∧
          (unit_lorawan_attached modem).2.1 = true) then
        (ESP_ERR_INVALID_STATE, (unit_lorawan_attached modem).2.2, false)
      else if (_configure_us915_frequency_plan modem c.sub_band).1
          ≠ ESP_OK then
        ((_configure_us915_frequency_plan modem c.sub_band).1,
         (unit_lorawan_attached modem).2.2
           ++ (_configure_us915_frequency_plan modem c.sub_band).2, false)
      else if (unit_lorawan_configOTTA (some c.dev_eui) (some c.app_eui)
          (some c.app_key) unit_lorwan_uldlmode.DIFFERENT_FREQ_MODE
          modem).1 ≠ ESP_OK then
        ((unit_lorawan_configOTTA (some c.dev_eui) (some c.app_eui)
           (some c.app_key) unit_lorwan_uldlmode.DIFFERENT_FREQ_MODE
           modem).1,
         (unit_lorawan_attached modem).2.2
           ++ (_configure_us915_frequency_plan modem c.sub_band).2
           ++ (unit_lorawan_configOTTA (some c.dev_eui) (some c.app_eui)
             (some c.app_key) unit_lorwan_uldlmode.DIFFERENT_FREQ_MODE
             modem).2, false)
      else if (_configure_ttn_network_parameters modem c).1 ≠ ESP_OK then
        ((_configure_ttn_network_parameters modem c).1,
         (unit_lorawan_attached modem).2.2
           ++ (_configure_us915_frequency_plan modem c.sub_band).2
           ++ (unit_lorawan_configOTTA (some c.dev_eui) (some c.app_eui)
             (some c.app_key) unit_lorwan_uldlmode.DIFFERENT_FREQ_MODE
             modem).2
           ++ (_configure_ttn_network_parameters modem c).2, false)
      else if (unit_lorawan_join modem).1 ≠ ESP_OK then
        ((unit_lorawan_join modem).1,
         (unit_lorawan_attached modem).2.2
           ++ (_configure_us915_frequency_plan modem c.sub_band).2
           ++ (unit_lorawan_configOTTA (some c.dev_eui) (some c.app_eui)
             (some c.app_key) unit_lorwan_uldlmode.DIFFERENT_FREQ_MODE
             modem).2
           ++ (_configure_ttn_network_parameters modem c).2
           ++ (modemCall modem "CSAVE").2.2
           ++ (unit_lorawan_join modem).2, false)
      else
        (ESP_OK,
         (unit_lorawan_attached modem).2.2
           ++ (_configure_us915_frequency_plan modem c.sub_band).2
           ++ (unit_lorawan_configOTTA (some c.dev_eui) (some c.app_eui)
             (some c.app_key) unit_lorwan_uldlmode.DIFFERENT_FREQ_MODE
             modem).2
           ++ (_configure_ttn_network_parameters modem c).2
           ++ (modemCall modem "CSAVE").2.2
           ++ (unit_lorawan_join modem).2, hasCallback)

/-! ## TTN join monitor task -/

/-- Events of the background join watcher: the 1000 ms poll cadence delay,
one unit_lorawan_connected poll, the one-shot callback invocation with its
(joined, error_code) arguments, the free of the parameter block and the
task self-delete. -/
inductive MonEvent where
  | delayMs (ms : Nat)
  | pollConnected
  | callbackRun (joined : Bool) (code : Nat)
  | freeParams
  | taskDelete
deriving DecidableEq

/-- The while loop of ttn_join_monitor_task (unit_lorawan.c lines
1433..1482).  oracle i is the (status, state) pair produced by the i-th
unit_lorawan_connected poll; connected is the value of the local variable
carried across iterations; elapsed counts polls already done and remaining
is timeout minus elapsed, so the loop guard elapsed < timeout is
remaining > 0. -/
def monitorLoop (oracle : Nat → EspErr × Bool) (elapsed : Nat)
    (connected : Bool) : Nat → List MonEvent
  | 0 =>
      (if connected then [] else [MonEvent.callbackRun false 1])
        ++ [MonEvent.freeParams, MonEvent.taskDelete]
  | remaining + 1 =>
      let r := oracle elapsed
      MonEvent.delayMs 1000 :: MonEvent.pollConnected ::
        (if r.1 = ESP_OK ∧ r.2 = true then
          [MonEvent.callbackRun true 0, MonEvent.freeParams,
           MonEvent.taskDelete]
        else monitorLoop oracle (elapsed + 1) r.2 remaining)

/-- ttn_join_monitor_task run from its entry point. -/
def ttn_join_monitor_task (oracle : Nat → EspErr × Bool)
    (timeout_sec : Nat) : List MonEvent :=
  monitorLoop oracle 0 false timeout_sec

/-- Projection of a watcher event onto a callback invocation. -/
def cbOf : MonEvent → Option (Bool × Nat)
  | MonEvent.callbackRun j c => some (j, c)
  | _ => none

/-- Whether a watcher event is a connected-check poll. -/
def isPollEv : MonEvent → Bool
  | MonEvent.pollConnected => true
  | _ => false

/-- Projection of a watcher event onto its delay duration. -/
def delayOf : MonEvent → Option Nat
  | MonEvent.delayMs m => some m
  | _ => none

/-- The callback invocations recorded in a watcher trace, in order. -/
def callbackList (tr : List MonEvent) : List (Bool × Nat) :=
  tr.filterMap cbOf

/-- Number of connected-check polls in a watcher trace. -/
def pollCount (tr : List MonEvent) : Nat := (tr.filter isPollEv).length

/-- Total milliseconds of cadence delay in a watcher trace. -/
def delayTotal (tr : List MonEvent) : Nat := (tr.filterMap delayOf).sum

example :
    ttn_join_monitor_task (fun _ => (ESP_OK, false)) 2
      = [MonEvent.delayMs 1000, MonEvent.pollConnected,
         MonEvent.delayMs 1000, MonEvent.pollConnected,
         MonEvent.callbackRun false 1, MonEvent.freeParams,
         MonEvent.taskDelete] := by decide

/-! ## Shared helper lemmas -/

/-- A string containing a nonempty needle is nonempty. -/
lemma ne_nil_of_strContains (hay needle : String)
    (hne : needle.data ≠ []) (h : strContains hay needle = true) :
    hay.data ≠ [] := by
  intro hemp
  unfold strContains at h
  rw [hemp] at h
  unfold findSub at h
  rcases hd : needle.data with _ | ⟨c, cs⟩
  · exact hne hd
  · rw [hd] at h
    simp [List.isPrefixOf] at h

/-- The parser returns ESP_OK on every nonempty response text. -/
lemma parse_ok_of_ne_nil (raw : String) (h : raw.data ≠ []) :
    (_unit_lorawan_parse_response raw).1 = ESP_OK := by
  unfold _unit_lorawan_parse_response
  rw [if_neg h]
  split
  · rfl
  · split
    · rfl
    · split <;> rfl

/-- The parser captures either nothing or exactly the raw text. -/
lemma parse_response_data (raw : String) :
    (_unit_lorawan_parse_response raw).2.response_data = none ∨
      (_unit_lorawan_parse_response raw).2.response_data = some raw := by
  unfold _unit_lorawan_parse_response
  split
  · exact Or.inl rfl
  · split
    · split
      · exact Or.inr rfl
      · exact Or.inl rfl
    · split
      · exact Or.inl rfl
      · split
        · exact Or.inr rfl
        · exact Or.inl rfl

/-- A text containing ERROR but not OK parses as an unsuccessful
response. -/
lemma parse_error_success_false (raw : String)
    (hE : strContains raw "ERROR" = true)
    (hK : strContains raw "OK" = false) :
    (_unit_lorawan_parse_response raw).2.success = false := by
  have hne : raw.data ≠ [] :=
    ne_nil_of_strContains raw "ERROR" (by decide) hE
  unfold _unit_lorawan_parse_response
  rw [if_neg hne, if_neg (by simp [hK]), if_pos hE]

/-- A text with no OK, no ERROR and no data-bearing marker parses as an
unsuccessful response. -/
lemma parse_unmarked_success_false (raw : String)
    (hK : strContains raw "OK" = false)
    (hE : strContains raw "ERROR" = false)
    (hM : hasDataMarker raw = false) :
    (_unit_lorawan_parse_response raw).2.success = false := by
  unfold _unit_lorawan_parse_response
  split
  · rfl
  · rw [if_neg (by simp [hK]), if_neg (by simp [hE]),
      if_neg (by simp [hM])]
    rfl

lemma attemptResult_ok_iff (o : AttemptOutcome) :
    (attemptResult o).1 = ESP_OK ↔ isGoodOutcome o = true := by
  cases o with
  | writeFail => simp [attemptResult, isGoodOutcome]
  | uartTimeout => simp [attemptResult, isGoodOutcome]
  | received t =>
      simp only [attemptResult, isGoodOutcome, Bool.not_eq_true']
      constructor
      · intro h
        rcases hd : t.data with _ | ⟨c, cs⟩
        · exfalso
          unfold _unit_lorawan_parse_response at h
          rw [if_pos hd] at h
          exact absurd h (by decide)
        · rfl
      · intro h
        apply parse_ok_of_ne_nil
        intro hemp
        rw [hemp] at h
        exact absurd h (by decide)

/-- The first attempt performs exactly one flush and one UART write and no
backoff delay. -/
lemma attemptTrace_counts0 (cmd : String) (o : AttemptOutcome) :
    flushCount (attemptTrace cmd o 0) = 1 ∧
    writeCount (attemptTrace cmd o 0) = 1 ∧
    backoffCount (attemptTrace cmd o 0) = 0 := by
  cases o <;>
    simp [attemptTrace, flushCount, writeCount, backoffCount,
      isFlushEv, isWriteEv, isBackoffEv, List.filter]

/-- Every retry attempt performs exactly one flush, one UART write and one
500 ms backoff delay. -/
lemma attemptTrace_countsS (cmd : String) (o : AttemptOutcome) (k : Nat) :
    flushCount (attemptTrace cmd o (k + 1)) = 1 ∧
    writeCount (attemptTrace cmd o (k + 1)) = 1 ∧
    backoffCount (attemptTrace cmd o (k + 1)) = 1 := by
  cases o <;>
    simp [attemptTrace, flushCount, writeCount, backoffCount,
      isFlushEv, isWriteEv, isBackoffEv, List.filter]

/-- The first attempt with a captured nonempty text ends the loop with the
parse of that text; here for an immediately good first attempt. -/
lemma sendLoop_good_now (cmd : String) (b : Nat → AttemptOutcome)
    (retry rem : Nat) (h : isGoodOutcome (b retry) = true) :
    sendLoop cmd b retry (rem + 1)
      = (ESP_OK, (attemptResult (b retry)).2,
         attemptTrace cmd (b retry) retry) := by
  have hok : (attemptResult (b retry)).1 = ESP_OK :=
    (attemptResult_ok_iff (b retry)).2 h
  unfold sendLoop
  rw [if_pos hok]
  simp [hok]

/-- A failing attempt with attempts left prepends its trace and defers to
the rest of the loop. -/
lemma sendLoop_bad_step (cmd : String) (b : Nat → AttemptOutcome)
    (retry rem : Nat) (h : isGoodOutcome (b retry) = false) :
    sendLoop cmd b retry (rem + 2)
      = ((sendLoop cmd b (retry + 1) (rem + 1)).1,
         (sendLoop cmd b (retry + 1) (rem + 1)).2.1,
         attemptTrace cmd (b retry) retry
           ++ (sendLoop cmd b (retry + 1) (rem + 1)).2.2) := by
  have hok : ¬ (attemptResult (b retry)).1 = ESP_OK := by
    rw [attemptResult_ok_iff, h]
    decide
  conv =>
    lhs
    unfold sendLoop
  rw [if_neg hok, if_neg (by omega : ¬ rem + 1 = 0)]

/-- A failing last attempt returns its own failure status. -/
lemma sendLoop_bad_last (cmd : String) (b : Nat → AttemptOutcome)
    (retry : Nat) (h : isGoodOutcome (b retry) = false) :
    sendLoop cmd b retry 1
      = ((attemptResult (b retry)).1, (attemptResult (b retry)).2,
         attemptTrace cmd (b retry) retry) := by
  have hok : ¬ (attemptResult (b retry)).1 = ESP_OK := by
    rw [attemptResult_ok_iff, h]
    decide
  unfold sendLoop
  rw [if_neg hok, if_pos rfl]

/-! ## Claim theorems -/

/-- Claim C5: the payload-ceiling lookup table indexed by data rate 0..4
is exactly 11, 53, 125, 242, 242 bytes, monotonically non-decreasing, the
switch of _unit_lorawan_validate_payload_size agrees with the table, a
payload of exactly the ceiling validates as ESP_OK, and a payload of
ceiling plus one fails with ESP_ERR_INVALID_SIZE. -/
theorem payload_ceiling_table :
    us915_max_payload_sizes = [11, 53, 125, 242, 242] ∧
    (∀ dr, dr < 5 → maxPayloadFor dr = us915_max_payload_sizes.getD dr 0) ∧
    (∀ j, j < 5 → ∀ i, i ≤ j →
      us915_max_payload_sizes.getD i 0 ≤ us915_max_payload_sizes.getD j 0) ∧
    (∀ dr, dr ≤ 4 →
      _unit_lorawan_validate_payload_size (maxPayloadFor dr) dr = ESP_OK ∧
      _unit_lorawan_validate_payload_size (maxPayloadFor dr + 1) dr
        = ESP_ERR_INVALID_SIZE) := by
  refine ⟨rfl, by decide, by decide, by decide⟩

/-- Witness for C5 at data rate 0: the 11-byte DR0 ceiling validates and
12 bytes are rejected as oversized. -/
theorem payload_ceiling_table_witness :
    _unit_lorawan_validate_payload_size (maxPayloadFor 0) 0 = ESP_OK ∧
    _unit_lorawan_validate_payload_size (maxPayloadFor 0 + 1) 0
      = ESP_ERR_INVALID_SIZE :=
  payload_ceiling_table.2.2.2 0 (by decide)

/-- Counterexample to C3: the text +CDATARATE:2 contains neither an OK
marker nor an ERROR marker, yet the parser classifies it as success (the
fallback branch for data-bearing reply markers), contradicting the claim
that such text is never classified as success. -/
theorem parse_unmarked_text_success :
    strContains "+CDATARATE:2" "OK" = false ∧
    strContains "+CDATARATE:2" "ERROR" = false ∧
    (_unit_lorawan_parse_response "+CDATARATE:2").2.success = true := by
  decide

/-- Claim C3 as amended: the text ERROR:7 parses as failure with error
code 7; every text containing ERROR but not OK parses as failure; and
every text containing no OK, no ERROR and none of the seven data-bearing
reply markers parses as failure. -/
theorem parse_failure_classification :
    ((_unit_lorawan_parse_response "ERROR:7").2.success = false ∧
     (_unit_lorawan_parse_response "ERROR:7").2.error_code = "7") ∧
    (∀ raw : String, strContains raw "ERROR" = true →
      strContains raw "OK" = false →
      (_unit_lorawan_parse_response raw).2.success = false) ∧
    (∀ raw : String, strContains raw "OK" = false →
      strContains raw "ERROR" = false → hasDataMarker raw = false →
      (_unit_lorawan_parse_response raw).2.success = false) := by
  refine ⟨by decide, ?_, ?_⟩
  · intro raw hE hK
    exact parse_error_success_false raw hE hK
  · intro raw hK hE hM
    exact parse_unmarked_success_false raw hK hE hM

/-- Witness for C3 applying the amended theorem to the concrete failure
text ERROR:12. -/
theorem parse_failure_classification_witness :
    (_unit_lorawan_parse_response "ERROR:12").2.success = false :=
  parse_failure_classification.2.1 "ERROR:12" (by decide) (by decide)

/-- Counterexample to C2: when the modem answers the very first attempt
with a protocol error reply, the framer performs exactly one attempt (one
flush, one write) and returns ESP_OK with the parsed failure, instead of
retrying the cycle up to 3 attempts and returning a failure status. -/
theorem framer_modem_error_single_attempt :
    _unit_lorawan_send_at_command "CSAVE"
        (fun _ => AttemptOutcome.received "ERROR:1")
      = (ESP_OK, ⟨false, none, "1"⟩,
         [IOEvent.flushEv, IOEvent.writeEv "AT+CSAVE\r\n",
          IOEvent.delayEv 100, IOEvent.readEv]) ∧
    writeCount (_unit_lorawan_send_at_command "CSAVE"
        (fun _ => AttemptOutcome.received "ERROR:1")).2.2 = 1 := by
  decide

/-- Claim C2 as amended: the framer retries the send plus receive cycle up
to 3 total attempts only on a transport write failure, a receive timeout
or an empty capture, flushing before every attempt and delaying 500 ms
before each retry; the first attempt whose nonempty response is captured
ends the loop with ESP_OK and the parse of that response, even when that
parse is an unsuccessful modem reply; after three failed attempts the last
failure status is returned. -/
theorem framer_retry_policy (cmd : String) (b : Nat → AttemptOutcome) :
    (isGoodOutcome (b 0) = true →
      _unit_lorawan_send_at_command cmd b
        = (ESP_OK, (attemptResult (b 0)).2, attemptTrace cmd (b 0) 0)) ∧
    (isGoodOutcome (b 0) = false → isGoodOutcome (b 1) = true →
      _unit_lorawan_send_at_command cmd b
        = (ESP_OK, (attemptResult (b 1)).2,
           attemptTrace cmd (b 0) 0 ++ attemptTrace cmd (b 1) 1) ∧
      flushCount (_unit_lorawan_send_at_command cmd b).2.2 = 2 ∧
      writeCount (_unit_lorawan_send_at_command cmd b).2.2 = 2 ∧
      backoffCount (_unit_lorawan_send_at_command cmd b).2.2 = 1) ∧
    (isGoodOutcome (b 0) = false → isGoodOutcome (b 1) = false →
      isGoodOutcome (b 2) = true →
      _unit_lorawan_send_at_command cmd b
        = (ESP_OK, (attemptResult (b 2)).2,
           attemptTrace cmd (b 0) 0 ++ attemptTrace cmd (b 1) 1
             ++ attemptTrace cmd (b 2) 2) ∧
      flushCount (_unit_lorawan_send_at_command cmd b).2.2 = 3 ∧
      writeCount (_unit_lorawan_send_at_command cmd b).2.2 = 3 ∧
      backoffCount (_unit_lorawan_send_at_command cmd b).2.2 = 2) ∧
    (isGoodOutcome (b 0) = false → isGoodOutcome (b 1) = false →
      isGoodOutcome (b 2) = false →
      (_unit_lorawan_send_at_command cmd b).1 = (attemptResult (b 2)).1 ∧
      (_unit_lorawan_send_at_command cmd b).1 ≠ ESP_OK ∧
      flushCount (_unit_lorawan_send_at_command cmd b).2.2 = 3 ∧
      writeCount (_unit_lorawan_send_at_command cmd b).2.2 = 3 ∧
      backoffCount (_unit_lorawan_send_at_command cmd b).2.2 = 2) := by
  have hc0f : (List.filter isFlushEv (attemptTrace cmd (b 0) 0)).length = 1 :=
    (attemptTrace_counts0 cmd (b 0)).1
  have hc0w : (List.filter isWriteEv (attemptTrace cmd (b 0) 0)).length = 1 :=
    (attemptTrace_counts0 cmd (b 0)).2.1
  have hc0b :
      (List.filter isBackoffEv (attemptTrace cmd (b 0) 0)).length = 0 :=
    (attemptTrace_counts0 cmd (b 0)).2.2
  have hc1f : (List.filter isFlushEv (attemptTrace cmd (b 1) 1)).length = 1 :=
    (attemptTrace_countsS cmd (b 1) 0).1
  have hc1w : (List.filter isWriteEv (attemptTrace cmd (b 1) 1)).length = 1 :=
    (attemptTrace_countsS cmd (b 1) 0).2.1
  have hc1b :
      (List.filter isBackoffEv (attemptTrace cmd (b 1) 1)).length = 1 :=
    (attemptTrace_countsS cmd (b 1) 0).2.2
  have hc2f : (List.filter isFlushEv (attemptTrace cmd (b 2) 2)).length = 1 :=
    (attemptTrace_countsS cmd (b 2) 1).1
  have hc2w : (List.filter isWriteEv (attemptTrace cmd (b 2) 2)).length = 1 :=
    (attemptTrace_countsS cmd (b 2) 1).2.1
  have hc2b :
      (List.filter isBackoffEv (attemptTrace cmd (b 2) 2)).length = 1 :=
    (attemptTrace_countsS cmd (b 2) 1).2.2
  refine ⟨?_, ?_, ?_, ?_⟩
  · intro h0
    exact sendLoop_good_now cmd b 0 2 h0
  · intro h0 h1
    have heq : _unit_lorawan_send_at_command cmd b
        = (ESP_OK, (attemptResult (b 1)).2,
           attemptTrace cmd (b 0) 0 ++ attemptTrace cmd (b 1) 1) := by
      unfold _unit_lorawan_send_at_command
      rw [sendLoop_bad_step cmd b 0 1 h0, sendLoop_good_now cmd b 1 1 h1]
    have htr : (_unit_lorawan_send_at_command cmd b).2.2
        = attemptTrace cmd (b 0) 0 ++ attemptTrace cmd (b 1) 1 := by
      rw [heq]
    refine ⟨heq, ?_, ?_, ?_⟩ <;>
      · rw [htr]
        simp only [flushCount, writeCount, backoffCount,
          List.filter_append, List.length_append]
        omega
  · intro h0 h1 h2
    have heq : _unit_lorawan_send_at_command cmd b
        = (ESP_OK, (attemptResult (b 2)).2,
           attemptTrace cmd (b 0) 0 ++ attemptTrace cmd (b 1) 1
             ++ attemptTrace cmd (b 2) 2) := by
      unfold _unit_lorawan_send_at_command
      rw [sendLoop_bad_step cmd b 0 1 h0, sendLoop_bad_step cmd b 1 0 h1,
        sendLoop_good_now cmd b 2 0 h2]
      simp [List.append_assoc]
    have htr : (_unit_lorawan_send_at_command cmd b).2.2
        = attemptTrace cmd (b 0) 0 ++ attemptTrace cmd (b 1) 1
            ++ attemptTrace cmd (b 2) 2 := by
      rw [heq]
    refine ⟨heq, ?_, ?_, ?_⟩ <;>
      · rw [htr]
        simp only [flushCount, writeCount, backoffCount,
          List.filter_append, List.length_append]
        omega
  · intro h0 h1 h2
    have hbad : ¬ (attemptResult (b 2)).1 = ESP_OK := by
      rw [attemptResult_ok_iff, h2]
      decide
    have heq : _unit_lorawan_send_at_command cmd b
        = ((attemptResult (b 2)).1, (attemptResult (b 2)).2,
           attemptTrace cmd (b 0) 0 ++ (attemptTrace cmd (b 1) 1
             ++ attemptTrace cmd (b 2) 2)) := by
      unfold _unit_lorawan_send_at_command
      rw [sendLoop_bad_step cmd b 0 1 h0, sendLoop_bad_step cmd b 1 0 h1,
        sendLoop_bad_last cmd b 2 h2]
    have htr : (_unit_lorawan_send_at_command cmd b).2.2
        = attemptTrace cmd (b 0) 0 ++ (attemptTrace cmd (b 1) 1
            ++ attemptTrace cmd (b 2) 2) := by
      rw [heq]
    refine ⟨by rw [heq], by rw [heq]; exact hbad, ?_, ?_, ?_⟩ <;>
      · rw [htr]
        simp only [flushCount, writeCount, backoffCount,
          List.filter_append, List.length_append]
        omega

/-- Witness for C2: a write failure followed by a timeout and then a
captured OK reply makes the framer use all three attempts and return the
parsed success. -/
theorem framer_retry_policy_witness :
    (_unit_lorawan_send_at_command "CGMI?"
        (fun n => if n = 0 then AttemptOutcome.writeFail
          else if n = 1 then AttemptOutcome.uartTimeout
          else AttemptOutcome.received "OK")).1 = ESP_OK := by
  have H := framer_retry_policy "CGMI?"
    (fun n => if n = 0 then AttemptOutcome.writeFail
      else if n = 1 then AttemptOutcome.uartTimeout
      else AttemptOutcome.received "OK")
  rw [(H.2.2.1 (by decide) (by decide) (by decide)).1]

/-- Claim C1, divergence witness: unit_lorawan_configOTTA called with a
15-character device EUI (and otherwise valid arguments) against a modem
that answers OK does not fail validation: it performs transport I O,
writes the malformed AT+CDEVEUI frame to the UART, and returns ESP_OK,
although the function contract in the header promises
ESP_ERR_INVALID_ARG for invalid EUI parameters before any command is
sent. -/
theorem configOTTA_short_devEUI_no_validation :
    ("0123456789ABCDE" : String).length = 15 ∧
    (unit_lorawan_configOTTA (some "0123456789ABCDE")
        (some "0123456789ABCDEF")
        (some "0123456789ABCDEF0123456789ABCDEF")
        unit_lorwan_uldlmode.DIFFERENT_FREQ_MODE
        (fun _ _ => AttemptOutcome.received "OK")).1 = ESP_OK ∧
    IOEvent.writeEv "AT+CDEVEUI=0123456789ABCDE\r\n"
      ∈ (unit_lorawan_configOTTA (some "0123456789ABCDE")
          (some "0123456789ABCDEF")
          (some "0123456789ABCDEF0123456789ABCDEF")
          unit_lorwan_uldlmode.DIFFERENT_FREQ_MODE
          (fun _ _ => AttemptOutcome.received "OK")).2 ∧
    (unit_lorawan_configOTTA (some "0123456789ABCDE")
        (some "0123456789ABCDEF")
        (some "0123456789ABCDEF0123456789ABCDEF")
        unit_lorwan_uldlmode.DIFFERENT_FREQ_MODE
        (fun _ _ => AttemptOutcome.received "OK")).2 ≠ [] := by
  decide

/-- The payload ceiling is at least the DR0 ceiling for every data rate,
including the default branch of the switch. -/
lemma maxPayloadFor_ge11 (d : Nat) : 11 ≤ maxPayloadFor d := by
  rcases d with _ | _ | _ | _ | _ | d
  · decide
  · decide
  · decide
  · decide
  · decide
  · exact Nat.le.refl

/-- Claim C4: unit_lorawan_send validates against the freshly queried data
rate before encoding; a failed query falls back to data rate 0 whose
ceiling is the conservative 11 bytes; the message AB is hex encoded to
4142 and framed as DTRX=1,2,2,4142 for every query outcome; and a frame is
only ever built when the unencoded length is within the ceiling of the
data rate used. -/
theorem send_fresh_query_and_frame :
    (∀ q : EspErr × Nat,
      (unit_lorawan_send [65, 66] q).frame = some "DTRX=1,2,2,4142") ∧
    (∀ (message : List Nat) (q : EspErr × Nat), message ≠ [] →
      q.1 ≠ ESP_OK →
      (unit_lorawan_send message q).drUsed = 0 ∧ maxPayloadFor 0 = 11) ∧
    (∀ (message : List Nat) (q : EspErr × Nat),
      (unit_lorawan_send message q).frame.isSome = true →
      message.length ≤ maxPayloadFor (unit_lorawan_send message q).drUsed)
    := by
  refine ⟨?_, ?_, ?_⟩
  · intro q
    have hval : _unit_lorawan_validate_payload_size 2 (drUsedOf q)
        = ESP_OK := by
      unfold _unit_lorawan_validate_payload_size
      rw [if_neg (show ¬ (2 > maxPayloadFor (drUsedOf q)) from by
        have := maxPayloadFor_ge11 (drUsedOf q)
        omega)]
    unfold unit_lorawan_send
    rw [if_neg (by decide : ¬ ([65, 66] : List Nat) = []),
      if_neg (by simp [hval]),
      if_neg (by decide : ¬ ((hexEncodeBytes [65, 66]).length
        > UNIT_LORAWAN_HEX_MESSAGE_MAX_SIZE))]
    rfl
  · intro message q hm hq
    have hd : drUsedOf q = 0 := by
      unfold drUsedOf
      rw [if_neg hq]
    refine ⟨?_, rfl⟩
    unfold unit_lorawan_send
    rw [if_neg hm]
    split
    · exact hd
    · split
      · exact hd
      · exact hd
  · intro message q h
    unfold unit_lorawan_send at h ⊢
    by_cases hm : message = []
    · rw [if_pos hm] at h
      exact Bool.noConfusion (show false = true from h)
    · rw [if_neg hm] at h ⊢
      by_cases hv : _unit_lorawan_validate_payload_size message.length
          (drUsedOf q) ≠ ESP_OK
      · rw [if_pos hv] at h
        exact Bool.noConfusion (show false = true from h)
      · rw [if_neg hv] at h ⊢
        push_neg at hv
        have hle : ¬ (message.length > maxPayloadFor (drUsedOf q)) := by
          intro hgt
          unfold _unit_lorawan_validate_payload_size at hv
          rw [if_pos hgt] at hv
          exact absurd hv (by decide)
        split
        · show message.length ≤ maxPayloadFor (drUsedOf q)
          omega
        · show message.length ≤ maxPayloadFor (drUsedOf q)
          omega

/-- Witness for C4 at the concrete failed query (ESP_FAIL, 0): the frame
is still DTRX=1,2,2,4142 and the fallback data rate is 0. -/
theorem send_fresh_query_and_frame_witness :
    (unit_lorawan_send [65, 66] (ESP_FAIL, 0)).frame
      = some "DTRX=1,2,2,4142" ∧
    (unit_lorawan_send [65, 66] (ESP_FAIL, 0)).drUsed = 0 :=
  ⟨send_fresh_query_and_frame.1 (ESP_FAIL, 0),
   (send_fresh_query_and_frame.2.1 [65, 66] (ESP_FAIL, 0) (by decide)
     (by decide)).1⟩

/-- Claim C9: set data rate above 4, set TX power above 7, set retries
with a message type above 1 or a retry count outside 1..15, and link check
with a mode above 2 each return ESP_ERR_INVALID_ARG with an empty
transport trace: no command reaches the modem. -/
theorem range_validated_ops_fail_fast :
    (∀ (d : Nat) (b : Nat → AttemptOutcome), 4 < d % 256 →
      unit_lorawan_set_data_rate d b = (ESP_ERR_INVALID_ARG, [])) ∧
    (∀ (p : Nat) (b : Nat → AttemptOutcome), 7 < p % 256 →
      unit_lorawan_set_tx_power p b = (ESP_ERR_INVALID_ARG, [])) ∧
    (∀ (t r : Nat) (b : Nat → AttemptOutcome),
      1 < t % 256 ∨ r % 256 < 1 ∨ 15 < r % 256 →
      unit_lorawan_set_retries t r b = (ESP_ERR_INVALID_ARG, [])) ∧
    (∀ (m : Nat) (b : Nat → AttemptOutcome), 2 < m % 256 →
      unit_lorawan_link_check m b = (ESP_ERR_INVALID_ARG, [])) := by
  refine ⟨?_, ?_, ?_, ?_⟩
  · intro d b h
    simp only [unit_lorawan_set_data_rate]
    rw [if_pos h]
  · intro p b h
    simp only [unit_lorawan_set_tx_power]
    rw [if_pos h]
  · intro t r b h
    simp only [unit_lorawan_set_retries]
    rcases h with h | h
    · rw [if_pos h]
    · by_cases ht : t % 256 > 1
      · rw [if_pos ht]
      · rw [if_neg ht, if_pos h]
  · intro m b h
    simp only [unit_lorawan_link_check]
    rw [if_pos h]

/-- Witness for C9 at the concrete out-of-range arguments 5, 8, (2, 8),
(1, 16) and 3. -/
theorem range_validated_ops_fail_fast_witness :
    unit_lorawan_set_data_rate 5 (fun _ => AttemptOutcome.writeFail)
      = (ESP_ERR_INVALID_ARG, []) ∧
    unit_lorawan_set_tx_power 8 (fun _ => AttemptOutcome.writeFail)
      = (ESP_ERR_INVALID_ARG, []) ∧
    unit_lorawan_set_retries 2 8 (fun _ => AttemptOutcome.writeFail)
      = (ESP_ERR_INVALID_ARG, []) ∧
    unit_lorawan_set_retries 1 16 (fun _ => AttemptOutcome.writeFail)
      = (ESP_ERR_INVALID_ARG, []) ∧
    unit_lorawan_link_check 3 (fun _ => AttemptOutcome.writeFail)
      = (ESP_ERR_INVALID_ARG, []) :=
  ⟨range_validated_ops_fail_fast.1 5 _ (by decide),
   range_validated_ops_fail_fast.2.1 8 _ (by decide),
   range_validated_ops_fail_fast.2.2.1 2 8 _ (Or.inl (by decide)),
   range_validated_ops_fail_fast.2.2.1 1 16 _ (Or.inr (Or.inr (by decide))),
   range_validated_ops_fail_fast.2.2.2 3 _ (by decide)⟩

/-- The AT frame of the issued command is written on every attempt, so it
appears in the trace of every framer run. -/
lemma writeEv_mem_sendLoop (cmd : String) (b : Nat → AttemptOutcome) :
    ∀ rem retry, 0 < rem →
      IOEvent.writeEv (atFrame cmd) ∈ (sendLoop cmd b retry rem).2.2 := by
  intro rem
  induction rem with
  | zero => intro retry h; omega
  | succ n ih =>
      intro retry _
      have hmem : ∀ (o : AttemptOutcome) (k : Nat),
          IOEvent.writeEv (atFrame cmd) ∈ attemptTrace cmd o k := by
        intro o k
        cases o <;> cases k <;> simp [attemptTrace]
      simp only [sendLoop]
      split
      · exact hmem (b retry) retry
      · split
        · exact hmem (b retry) retry
        · exact List.mem_append_left _ (hmem (b retry) retry)

/-- Claim C10: unit_lorawan_log with a level above 5 clamps the level to 5
instead of rejecting it: the built command is ILOGLVL=5, and the framed
AT+ILOGLVL=5 line is written to the UART, unlike the range-validated
operations that return ESP_ERR_INVALID_ARG without transport I O. -/
theorem log_level_clamped_not_rejected (level : Nat)
    (b : Nat → AttemptOutcome) (h : 5 < level % 256) :
    (unit_lorawan_log level b).2.1 = "ILOGLVL=5" ∧
    IOEvent.writeEv "AT+ILOGLVL=5\r\n" ∈ (unit_lorawan_log level b).2.2
    := by
  have h5 : level % 256 > UNIT_LORAWAN_LOG_LEVEL_MAX := h
  have hcl : (if level % 256 > UNIT_LORAWAN_LOG_LEVEL_MAX
      then UNIT_LORAWAN_LOG_LEVEL_MAX else level % 256) = 5 := by
    rw [if_pos h5]
    rfl
  simp only [unit_lorawan_log, hcl]
  constructor
  · decide
  · have hfr : atFrame ("ILOGLVL=" ++ Nat.repr 5) = "AT+ILOGLVL=5\r\n" := by
      decide
    have hm := writeEv_mem_sendLoop ("ILOGLVL=" ++ Nat.repr 5) b 3 0
      (by decide)
    rw [← hfr]
    exact hm

/-- Witness for C10 at level 6: the command sent is ILOGLVL=5. -/
theorem log_level_clamped_not_rejected_witness :
    (unit_lorawan_log 6 (fun _ => AttemptOutcome.received "OK")).2.1
      = "ILOGLVL=5" :=
  (log_level_clamped_not_rejected 6 (fun _ => AttemptOutcome.received "OK")
    (by decide)).1

/-- Round trip of one hex digit below 16. -/
lemma hexDigitVal_hexDigit : ∀ d, d < 16 →
    hexDigitVal (hexDigit d) = some d := by decide

/-- Every hex digit below 16 is a decimal digit or an uppercase A..F. -/
lemma hexDigit_charset : ∀ d, d < 16 →
    (hexDigit d).isDigit = true ∨
      (65 ≤ (hexDigit d).toNat ∧ (hexDigit d).toNat ≤ 70) := by decide

/-- The encoding always produces two characters per byte. -/
lemma hexEncodeBytes_length (bs : List Nat) :
    (hexEncodeBytes bs).length = 2 * bs.length := by
  induction bs with
  | nil => rfl
  | cons b rest ih =>
      simp only [hexEncodeBytes, byteToHex, List.length_append,
        List.length_cons, List.length_nil, ih]
      omega

/-- Decoding inverts encoding on byte sequences. -/
lemma hexDecode_encode (bs : List Nat) (h : ∀ x ∈ bs, x < 256) :
    hexDecodeBytes (hexEncodeBytes bs) = some bs := by
  induction bs with
  | nil => rfl
  | cons b rest ih =>
      have hb : b < 256 := h b (List.mem_cons_self b rest)
      have hrest := ih (fun x hx => h x (List.mem_cons_of_mem b hx))
      have hhi : b % 256 / 16 < 16 := by omega
      have hlo : b % 256 % 16 < 16 := by omega
      show hexDecodeBytes (hexDigit (b % 256 / 16)
          :: hexDigit (b % 256 % 16) :: hexEncodeBytes rest)
        = some (b :: rest)
      simp only [hexDecodeBytes, hexDigitVal_hexDigit _ hhi,
        hexDigitVal_hexDigit _ hlo, hrest]
      have hb2 : 16 * (b % 256 / 16) + b % 256 % 16 = b := by omega
      rw [hb2]

/-- Every character of the encoding is a digit or an uppercase A..F. -/
lemma hexEncodeBytes_charset (bs : List Nat) :
    ∀ c ∈ hexEncodeBytes bs,
      c.isDigit = true ∨ (65 ≤ c.toNat ∧ c.toNat ≤ 70) := by
  induction bs with
  | nil =>
      intro c hc
      simp [hexEncodeBytes] at hc
  | cons b rest ih =>
      intro c hc
      have hhi : b % 256 / 16 < 16 := by omega
      have hlo : b % 256 % 16 < 16 := by omega
      simp only [hexEncodeBytes, byteToHex, List.mem_append,
        List.mem_cons, List.not_mem_nil, or_false] at hc
      rcases hc with (hc | hc) | hc
      · rw [hc]
        exact hexDigit_charset _ hhi
      · rw [hc]
        exact hexDigit_charset _ hlo
      · exact ih c hc

/-- Claim C6: the payload codec maps each byte to exactly two uppercase
zero-padded hex characters, so the encoding of a byte sequence has length
exactly twice the input length, decoding reproduces the original bytes,
and the encoding is injective on byte sequences. -/
theorem hex_codec_bijection :
    (∀ bs : List Nat, (∀ x ∈ bs, x < 256) →
      (hexEncodeBytes bs).length = 2 * bs.length ∧
      hexDecodeBytes (hexEncodeBytes bs) = some bs ∧
      ∀ c ∈ hexEncodeBytes bs,
        c.isDigit = true ∨ (65 ≤ c.toNat ∧ c.toNat ≤ 70)) ∧
    (∀ bs1 bs2 : List Nat, (∀ x ∈ bs1, x < 256) → (∀ x ∈ bs2, x < 256) →
      hexEncodeBytes bs1 = hexEncodeBytes bs2 → bs1 = bs2) := by
  refine ⟨?_, ?_⟩
  · intro bs h
    exact ⟨hexEncodeBytes_length bs, hexDecode_encode bs h,
      hexEncodeBytes_charset bs⟩
  · intro bs1 bs2 h1 h2 he
    have d1 := hexDecode_encode bs1 h1
    have d2 := hexDecode_encode bs2 h2
    rw [he, d2] at d1
    exact (Option.some_inj.mp d1).symm

/-- Witness for C6 at the bytes 0, 171, 255: six characters are produced
and decoding returns the original bytes. -/
theorem hex_codec_bijection_witness :
    (hexEncodeBytes [0, 171, 255]).length = 2 * 3 ∧
    hexDecodeBytes (hexEncodeBytes [0, 171, 255]) = some [0, 171, 255] :=
  ⟨(hex_codec_bijection.1 [0, 171, 255] (by decide)).1,
   (hex_codec_bijection.1 [0, 171, 255] (by decide)).2.1⟩

/-- A nonempty captured text is a loop-ending outcome. -/
lemma isGood_received (raw : String) (h : raw.data ≠ []) :
    isGoodOutcome (AttemptOutcome.received raw) = true := by
  show (!raw.data.isEmpty) = true
  rcases hd : raw.data with _ | ⟨c, cs⟩
  · exact absurd hd h
  · rfl

/-- A framer run whose first attempt captures a nonempty text returns the
parse of that text at once. -/
lemma send_at_first_received (cmd raw : String) (hne : raw.data ≠ []) :
    _unit_lorawan_send_at_command cmd
        (fun _ => AttemptOutcome.received raw)
      = (ESP_OK, (_unit_lorawan_parse_response raw).2,
         attemptTrace cmd (AttemptOutcome.received raw) 0) :=
  sendLoop_good_now cmd _ 0 2 (isGood_received raw hne)

/-- Counterexample to C7: the modem text ERROR +CSTATUS:04 contains the
substring +CSTATUS:04, yet connected-check reports state false (the parser
classifies the text as a failed command, so the status extraction never
runs), contradicting the claim that every response text containing
+CSTATUS:04 yields state true. -/
theorem connected_error_text_state_false :
    strContains "ERROR +CSTATUS:04" "+CSTATUS:04" = true ∧
    connectedOnce "ERROR +CSTATUS:04" = (ESP_OK, false) := by
  decide

/-- Claim C7 as amended: for a response with no +CSTATUS: substring,
connected-check returns ESP_OK with state false; for a response carrying
ERROR without OK, it also returns ESP_OK with state false; and when the
parser classifies the response as success, the state is decided by the
token after the first +CSTATUS: marker — in particular +CSTATUS:04 and
+CSTATUS:08 give true and +CSTATUS:01, +CSTATUS:02, +CSTATUS:03 give
false. -/
theorem connected_status_rules :
    (∀ raw : String, raw.data ≠ [] →
      strContains raw "+CSTATUS:" = false →
      connectedOnce raw = (ESP_OK, false)) ∧
    (∀ raw : String, strContains raw "ERROR" = true →
      strContains raw "OK" = false →
      connectedOnce raw = (ESP_OK, false)) ∧
    (connectedOnce "+CSTATUS:04" = (ESP_OK, true) ∧
     connectedOnce "+CSTATUS:08" = (ESP_OK, true) ∧
     connectedOnce "OK+CSTATUS:04" = (ESP_OK, true) ∧
     connectedOnce "+CSTATUS:01" = (ESP_OK, false) ∧
     connectedOnce "+CSTATUS:02" = (ESP_OK, false) ∧
     connectedOnce "+CSTATUS:03" = (ESP_OK, false)) := by
  refine ⟨?_, ?_, by decide⟩
  · intro raw hne hcs
    have hs := send_at_first_received "CSTATUS?" raw hne
    have hnone : findSub "+CSTATUS:".data raw.data = none := by
      rcases hf : findSub "+CSTATUS:".data raw.data with _ | suf
      · rfl
      · exfalso
        unfold strContains at hcs
        rw [hf] at hcs
        exact Bool.noConfusion (show true = false from hcs)
    have htok : statusTokenFrom raw = none := by
      unfold statusTokenFrom
      rw [hnone]
    have hst : connectedState ESP_OK
        (_unit_lorawan_parse_response raw).2 = false := by
      unfold connectedState
      by_cases hp : ESP_OK = ESP_OK ∧
          (_unit_lorawan_parse_response raw).2.success = true
      · rw [if_pos hp]
        rcases parse_response_data raw with hd | hd
        · rw [hd]
        · rw [hd]
          show (match statusTokenFrom raw with
            | some tok => !tok.data.isEmpty
                && (strContains tok "04" || strContains tok "08")
            | none => false) = false
          rw [htok]
      · rw [if_neg hp]
    unfold connectedOnce unit_lorawan_connected
    rw [hs]
    simp only []
    rw [hst]
  · intro raw hE hK
    have hne : raw.data ≠ [] :=
      ne_nil_of_strContains raw "ERROR" (by decide) hE
    have hs := send_at_first_received "CSTATUS?" raw hne
    have hsucc := parse_error_success_false raw hE hK
    have hst : connectedState ESP_OK
        (_unit_lorawan_parse_response raw).2 = false := by
      unfold connectedState
      rw [if_neg]
      intro hp
      rw [hsucc] at hp
      exact absurd hp.2 (by decide)
    unfold connectedOnce unit_lorawan_connected
    rw [hs]
    simp only []
    rw [hst]

/-- Witness for C7 applying the amended theorem to the concrete texts
+DTRX:0 (no status marker) and ERROR:1 (failed command). -/
theorem connected_status_rules_witness :
    connectedOnce "+DTRX:0" = (ESP_OK, false) ∧
    connectedOnce "ERROR:1" = (ESP_OK, false) :=
  ⟨connected_status_rules.1 "+DTRX:0" (by decide) (by decide),
   connected_status_rules.2.1 "ERROR:1" (by decide) (by decide)⟩

/-- Watcher trace counters over a cadence delay. -/
lemma monCounts_delay (m : Nat) (tr : List MonEvent) :
    callbackList (MonEvent.delayMs m :: tr) = callbackList tr ∧
    pollCount (MonEvent.delayMs m :: tr) = pollCount tr ∧
    delayTotal (MonEvent.delayMs m :: tr) = m + delayTotal tr := by
  refine ⟨?_, ?_, ?_⟩ <;>
    simp [callbackList, cbOf, pollCount, isPollEv, delayTotal, delayOf]

/-- Watcher trace counters over a poll event. -/
lemma monCounts_poll (tr : List MonEvent) :
    callbackList (MonEvent.pollConnected :: tr) = callbackList tr ∧
    pollCount (MonEvent.pollConnected :: tr) = pollCount tr + 1 ∧
    delayTotal (MonEvent.pollConnected :: tr) = delayTotal tr := by
  refine ⟨?_, ?_, ?_⟩ <;>
    simp [callbackList, cbOf, pollCount, isPollEv, delayTotal, delayOf,
      Nat.add_comm]

/-- Behaviour of the join-watcher loop from any start index with the
carried connected flag false, assuming the connected-check oracle never
reports a true state together with a failure status (which the modelled
unit_lorawan_connected cannot do): the callback fires exactly once, the
trace ends with the parameter free and the task delete, a run whose
window contains no successful poll fires (false, 1) after polling the
whole window at one delay per poll, and a run whose first successful poll
is at index k fires (true, 0) after k + 1 polls. -/
lemma monitorLoop_spec (oracle : Nat → EspErr × Bool)
    (h : ∀ i, (oracle i).1 = ESP_OK ∨ (oracle i).2 = false) :
    ∀ rem elapsed,
      (callbackList (monitorLoop oracle elapsed false rem)).length = 1 ∧
      (∃ pre, monitorLoop oracle elapsed false rem
        = pre ++ [MonEvent.freeParams, MonEvent.taskDelete]) ∧
      ((∀ i, elapsed ≤ i → i < elapsed + rem →
          ¬((oracle i).1 = ESP_OK ∧ (oracle i).2 = true)) →
        callbackList (monitorLoop oracle elapsed false rem) = [(false, 1)] ∧
        pollCount (monitorLoop oracle elapsed false rem) = rem ∧
        delayTotal (monitorLoop oracle elapsed false rem) = 1000 * rem) ∧
      (∀ k, elapsed ≤ k → k < elapsed + rem →
        (oracle k).1 = ESP_OK → (oracle k).2 = true →
        (∀ j, elapsed ≤ j → j < k →
          ¬((oracle j).1 = ESP_OK ∧ (oracle j).2 = true)) →
        callbackList (monitorLoop oracle elapsed false rem) = [(true, 0)] ∧
        pollCount (monitorLoop oracle elapsed false rem)
          = k + 1 - elapsed ∧
        delayTotal (monitorLoop oracle elapsed false rem)
          = 1000 * (k + 1 - elapsed)) := by
  intro rem
  induction rem with
  | zero =>
      intro elapsed
      refine ⟨?_, ⟨[MonEvent.callbackRun false 1], rfl⟩, ?_, ?_⟩
      · rfl
      · intro _
        refine ⟨rfl, rfl, rfl⟩
      · intro k hk1 hk2 _ _ _
        omega
  | succ n ih =>
      intro elapsed
      by_cases hg : (oracle elapsed).1 = ESP_OK ∧ (oracle elapsed).2 = true
      · have hloop : monitorLoop oracle elapsed false (n + 1)
            = MonEvent.delayMs 1000 :: MonEvent.pollConnected ::
              [MonEvent.callbackRun true 0, MonEvent.freeParams,
               MonEvent.taskDelete] := by
          simp only [monitorLoop]
          rw [if_pos hg]
        refine ⟨?_, ?_, ?_, ?_⟩
        · rw [hloop]
          decide
        · rw [hloop]
          exact ⟨[MonEvent.delayMs 1000, MonEvent.pollConnected,
            MonEvent.callbackRun true 0], rfl⟩
        · intro hall
          exact absurd hg (hall elapsed (Nat.le_refl elapsed) (by omega))
        · intro k hk1 hk2 hok htrue hprior
          have hk : k = elapsed := by
            by_contra hne
            exact hprior elapsed (Nat.le_refl elapsed) (by omega) hg
          subst hk
          rw [hloop]
          refine ⟨by decide, ?_, ?_⟩
          · have h1 : pollCount (MonEvent.delayMs 1000 ::
                MonEvent.pollConnected :: [MonEvent.callbackRun true 0,
                MonEvent.freeParams, MonEvent.taskDelete]) = 1 := by decide
            rw [h1]
            omega
          · have h2 : delayTotal (MonEvent.delayMs 1000 ::
                MonEvent.pollConnected :: [MonEvent.callbackRun true 0,
                MonEvent.freeParams, MonEvent.taskDelete]) = 1000 := by
              decide
            rw [h2]
            omega
      · have hst : (oracle elapsed).2 = false := by
          rcases h elapsed with h1 | h2
          · cases hb : (oracle elapsed).2
            · rfl
            · exact absurd ⟨h1, hb⟩ hg
          · exact h2
        have hloop : monitorLoop oracle elapsed false (n + 1)
            = MonEvent.delayMs 1000 :: MonEvent.pollConnected ::
              monitorLoop oracle (elapsed + 1) false n := by
          simp only [monitorLoop]
          rw [if_neg hg, hst]
        obtain ⟨ih1, ih2, ih3, ih4⟩ := ih (elapsed + 1)
        have hrest := monCounts_poll
          (monitorLoop oracle (elapsed + 1) false n)
        have hdel := monCounts_delay 1000 (MonEvent.pollConnected ::
          monitorLoop oracle (elapsed + 1) false n)
        refine ⟨?_, ?_, ?_, ?_⟩
        · rw [hloop, hdel.1, hrest.1]
          exact ih1
        · obtain ⟨pre, hpre⟩ := ih2
          rw [hloop, hpre]
          exact ⟨MonEvent.delayMs 1000 :: MonEvent.pollConnected :: pre,
            rfl⟩
        · intro hall
          obtain ⟨e1, e2, e3⟩ := ih3
            (fun i hi1 hi2 => hall i (by omega) (by omega))
          rw [hloop]
          refine ⟨by rw [hdel.1, hrest.1]; exact e1, ?_, ?_⟩
          · rw [hdel.2.1, hrest.2.1, e2]
          · rw [hdel.2.2, hrest.2.2, e3]
            omega
        · intro k hk1 hk2 hok htrue hprior
          have hkne : k ≠ elapsed := by
            intro he
            exact hg (he ▸ ⟨hok, htrue⟩)
          obtain ⟨e1, e2, e3⟩ := ih4 k (by omega) (by omega) hok htrue
            (fun j hj1 hj2 => hprior j (by omega) hj2)
          rw [hloop]
          refine ⟨by rw [hdel.1, hrest.1]; exact e1, ?_, ?_⟩
          · rw [hdel.2.1, hrest.2.1, e2]
            omega
          · rw [hdel.2.2, hrest.2.2, e3]
            omega

/-- The state written by unit_lorawan_connected can only be true when the
call status is ESP_OK, which justifies the oracle hypothesis of the
join-watcher specification below. -/
lemma connectedState_true_imp_ok (e : EspErr) (pr : lorawan_response_t)
    (h : connectedState e pr = true) : e = ESP_OK := by
  unfold connectedState at h
  by_cases hp : e = ESP_OK ∧ pr.success = true
  · exact hp.1
  · rw [if_neg hp] at h
    exact Bool.noConfusion h

/-- The modelled unit_lorawan_connected satisfies the join-watcher oracle
hypothesis: a true state comes with status ESP_OK. -/
lemma connected_true_imp_ok (b : Nat → AttemptOutcome)
    (h : (unit_lorawan_connected b).2.1 = true) :
    (unit_lorawan_connected b).1 = ESP_OK :=
  connectedState_true_imp_ok _ _ h

/-- The orchestrator spawns the watcher exactly when it returns ESP_OK
and a callback was supplied: every early-exit branch of
unit_lorawan_configure_ttn_us915 returns a non-ESP_OK status and no
spawn, and the final branch returns ESP_OK and spawns exactly when a
callback is present. -/
lemma configure_spawn_eq (config : Option unit_lorawan_ttn_config_t)
    (cb : Bool) (modem : String → Nat → AttemptOutcome) :
    (unit_lorawan_configure_ttn_us915 config cb modem).2.2
      = (if (unit_lorawan_configure_ttn_us915 config cb modem).1 = ESP_OK
         then cb else false) := by
  unfold unit_lorawan_configure_ttn_us915
  rcases config with _ | c
  · simp
  · split
    · rename_i hv
      simp [hv]
    · split
      · simp
      · split
        · rename_i hv
          simp [hv]
        · split
          · rename_i hv
            simp [hv]
          · split
            · rename_i hv
              simp [hv]
            · split
              · rename_i hv
                simp [hv]
              · split
                · simp
                · rename_i hv
                  simp [hv]

/-- Claim C8: the join-watcher task body invokes the supplied callback
exactly once — with (true, 0) if some connected-check poll within the
timeout reports joined, and with (false, 1) after polling once per second
for the whole timeout otherwise (for a 2-second timeout, two 1000 ms
cadence delays, about 2 seconds) — frees its parameter block and deletes
itself at the end of its trace; the hypothesis on the oracle (state true
only with status ESP_OK) is exactly what unit_lorawan_connected
guarantees; and the orchestrator creates the watcher exactly when it
returns ESP_OK and a callback was supplied. -/
theorem join_monitor_one_shot (oracle : Nat → EspErr × Bool)
    (timeout : Nat)
    (h : ∀ i, (oracle i).1 = ESP_OK ∨ (oracle i).2 = false) :
    (callbackList (ttn_join_monitor_task oracle timeout)).length = 1 ∧
    (∃ pre, ttn_join_monitor_task oracle timeout
      = pre ++ [MonEvent.freeParams, MonEvent.taskDelete]) ∧
    ((∀ i, i < timeout →
        ¬((oracle i).1 = ESP_OK ∧ (oracle i).2 = true)) →
      callbackList (ttn_join_monitor_task oracle timeout) = [(false, 1)] ∧
      pollCount (ttn_join_monitor_task oracle timeout) = timeout ∧
      delayTotal (ttn_join_monitor_task oracle timeout)
        = 1000 * timeout) ∧
    (∀ k, k < timeout → (oracle k).1 = ESP_OK → (oracle k).2 = true →
      (∀ j, j < k → ¬((oracle j).1 = ESP_OK ∧ (oracle j).2 = true)) →
      callbackList (ttn_join_monitor_task oracle timeout) = [(true, 0)] ∧
      pollCount (ttn_join_monitor_task oracle timeout) = k + 1 ∧
      delayTotal (ttn_join_monitor_task oracle timeout)
        = 1000 * (k + 1)) ∧
    (∀ (config : Option unit_lorawan_ttn_config_t) (cb : Bool)
        (modem : String → Nat → AttemptOutcome),
      (unit_lorawan_configure_ttn_us915 config cb modem).1 = ESP_OK →
      (unit_lorawan_configure_ttn_us915 config cb modem).2.2 = cb) := by
  obtain ⟨s1, s2, s3, s4⟩ := monitorLoop_spec oracle h timeout 0
  refine ⟨s1, s2, ?_, ?_, ?_⟩
  · intro hall
    exact s3 (fun i hi1 hi2 => hall i (by omega))
  · intro k hk hok htrue hprior
    obtain ⟨e1, e2, e3⟩ := s4 k (Nat.zero_le k) (by omega) hok htrue
      (fun j hj1 hj2 => hprior j hj2)
    refine ⟨e1, ?_, ?_⟩
    · show pollCount (monitorLoop oracle 0 false timeout) = k + 1
      rw [e2]
      omega
    · show delayTotal (monitorLoop oracle 0 false timeout)
        = 1000 * (k + 1)
      rw [e3]
      omega
  · intro config cb modem hok
    rw [configure_spawn_eq config cb modem, if_pos hok]

/-- Witness for C8: with a 2-second timeout and an oracle that always
reports not connected with status ESP_OK, the callback list is exactly
one (false, 1) invocation after two polls and 2000 ms of cadence delay. -/
theorem join_monitor_one_shot_witness :
    callbackList (ttn_join_monitor_task (fun _ => (ESP_OK, false)) 2)
      = [(false, 1)] ∧
    pollCount (ttn_join_monitor_task (fun _ => (ESP_OK, false)) 2) = 2 ∧
    delayTotal (ttn_join_monitor_task (fun _ => (ESP_OK, false)) 2)
      = 1000 * 2 :=
  (join_monitor_one_shot (fun _ => (ESP_OK, false)) 2
    (fun _ => Or.inl rfl)).2.2.1
    (fun _ _ hg => Bool.noConfusion (show false = true from hg.2))

end UnitLorawan
